import Mathlib

/-!
Verification of the structify plugin's method dispatcher
(src/linux/structify_plugin.cc) against its specification.

The plugin handles one method channel.  On a call named
"getPlatformVersion" it zero-initializes a `struct utsname`, calls
`uname`, formats `"Linux %s"` with the struct's `version` field and
returns a success response wrapping that string; on any other call name
it returns a not-implemented response.  The handler then responds
exactly once via `fl_method_call_respond`.
-/

/-- The fields of POSIX `struct utsname` that `uname(2)` fills in.
Each field is a NUL-terminated character array in C, modelled as a
`String`. -/
structure Utsname where
  sysname : String
  nodename : String
  release : String
  version : String
  machine : String
deriving Repr, DecidableEq

/-- The value of `struct utsname uname_data = {};` — C++ value
initialization zeroes every byte, so each char array reads as the empty
string. -/
def Utsname.zeroInit : Utsname :=
  ⟨"", "", "", "", ""⟩

/-- The host-kernel state observed through `uname(2)`: `some u` when the
system call succeeds and fills the buffer with `u`; `none` when it fails
(returns -1) and leaves the caller's buffer untouched. -/
structure Kernel where
  unameResult : Option Utsname
deriving Repr, DecidableEq

/-- Embedding of `uname(&buf)`: on success the buffer is overwritten with
the kernel's data and 0 is returned; on failure the buffer keeps its
previous contents and -1 is returned. -/
def uname (k : Kernel) (buf : Utsname) : Utsname × Int :=
  match k.unameResult with
  | some u => (u, 0)
  | none => (buf, -1)

/-- Embedding of `g_strdup_printf("Linux %s", s)`: allocates a fresh
string holding the literal `"Linux "` followed by `s`. -/
def g_strdup_printf_Linux (s : String) : String :=
  "Linux " ++ s

/-- A Flutter standard-codec value, as far as this plugin builds or
receives one: `fl_value_new_string` produces `string`, and the incoming
argument payload is an arbitrary such value (possibly null). -/
inductive FlValue where
  | null : FlValue
  | string (s : String) : FlValue
deriving Repr, DecidableEq

/-- A method response: `fl_method_success_response_new(result)` or
`fl_method_not_implemented_response_new()`. -/
inductive FlMethodResponse where
  | success (result : FlValue) : FlMethodResponse
  | notImplemented : FlMethodResponse
deriving Repr, DecidableEq

/-- An incoming method call: `fl_method_call_get_name` returns `name`;
the argument payload travels with the call but is never read by this
plugin. -/
structure FlMethodCall where
  name : String
  args : FlValue
deriving Repr, DecidableEq

/-- The plugin instance `_StructifyPlugin`: besides the GObject parent it
declares no fields at all, so it carries no mutable plugin state. -/
structure StructifyPlugin where
deriving Repr, DecidableEq

/-- Embedding of `get_platform_version()` from
src/linux/structify_plugin.cc lines 38-44:

  struct utsname uname_data = {};
  uname(&uname_data);
  g_autofree gchar *version = g_strdup_printf("Linux %s", uname_data.version);
  g_autoptr(FlValue) result = fl_value_new_string(version);
  return FL_METHOD_RESPONSE(fl_method_success_response_new(result));

The return value of `uname` is discarded; the struct's contents are used
unvalidated. -/
def get_platform_version (k : Kernel) : FlMethodResponse :=
  let uname_data := Utsname.zeroInit
  let uname_data := (uname k uname_data).1
  let version := g_strdup_printf_Linux uname_data.version
  let result := FlValue.string version
  FlMethodResponse.success result

/-- The `struct utsname` contents as they stand after the `uname` call
inside `get_platform_version`. -/
def unameData (k : Kernel) : Utsname :=
  (uname k Utsname.zeroInit).1

/-- Embedding of `structify_plugin_handle_method_call` from
src/linux/structify_plugin.cc lines 22-36.  The function computes a
response (initially the null pointer, then assigned on each branch of
the `strcmp` test) and finishes with a single call
`fl_method_call_respond(method_call, response, nullptr)`.  The returned
list is the trace of `fl_method_call_respond` invocations, each carrying
the (possibly null) response pointer passed to it. -/
def structify_plugin_handle_method_call (_self : StructifyPlugin) (k : Kernel)
    (method_call : FlMethodCall) : List (Option FlMethodResponse) :=
  let method := method_call.name
  let response : Option FlMethodResponse :=
    if method = "getPlatformVersion" then
      some (get_platform_version k)
    else
      some FlMethodResponse.notImplemented
  [response]

/-- Two consecutive dispatches of the same call against the same
host-kernel state, as in the spec's double-call test: the pair of
respond traces produced by the first and the second call. -/
def callHandlerTwice (self : StructifyPlugin) (k : Kernel)
    (method_call : FlMethodCall) :
    List (Option FlMethodResponse) × List (Option FlMethodResponse) :=
  (structify_plugin_handle_method_call self k method_call,
   structify_plugin_handle_method_call self k method_call)

/-- Modelled from the spec (claim C1's reading): a payload built by
querying the host kernel for both its name and its version and
formatting them as `"<OS-name> <version>"`. -/
def specNameAndVersionPayload (u : Utsname) : String :=
  u.sysname ++ " " ++ u.version

/-- A sample kernel state whose `uname` succeeds. -/
def sampleUtsname : Utsname :=
  ⟨"Linux", "buildhost", "6.1.0-18-amd64",
   "#1 SMP PREEMPT_DYNAMIC Debian 6.1.76-1", "x86_64"⟩

/-- A kernel state on which `uname` succeeds with `sampleUtsname`. -/
def sampleKernel : Kernel :=
  ⟨some sampleUtsname⟩

/-- A kernel state on which `uname` fails. -/
def failingKernel : Kernel :=
  ⟨none⟩

/-- A kernel state whose reported OS name is not "Linux". -/
def foreignKernel : Kernel :=
  ⟨some ⟨"FreeBSD", "host", "14.0", "14.0-RELEASE", "amd64"⟩⟩

/-- Claim C1, counterexample: at a kernel state whose reported OS name is
"FreeBSD", the dispatcher still answers "Linux 14.0-RELEASE", not the
spec's "<OS-name> <version>" (which would be "FreeBSD 14.0-RELEASE"):
the handler does not query the kernel for its name. -/
theorem c1_counterexample :
    structify_plugin_handle_method_call ⟨⟩ foreignKernel
        ⟨"getPlatformVersion", FlValue.null⟩ =
      [some (FlMethodResponse.success (FlValue.string "Linux 14.0-RELEASE"))] ∧
    specNameAndVersionPayload (unameData foreignKernel) = "FreeBSD 14.0-RELEASE" ∧
    structify_plugin_handle_method_call ⟨⟩ foreignKernel
        ⟨"getPlatformVersion", FlValue.null⟩ ≠
      [some (FlMethodResponse.success
        (FlValue.string (specNameAndVersionPayload (unameData foreignKernel))))] := by
  refine ⟨by decide, by decide, by decide⟩

/-- Claim C1, amended: for every incoming call named "getPlatformVersion",
the dispatcher queries the host kernel for its version, formats the
result with the hardcoded OS-name literal "Linux" as "Linux <version>",
and responds with a success response wrapping that single string. -/
theorem c1_dispatch_returns_linux_version (self : StructifyPlugin)
    (k : Kernel) (a : FlValue) :
    structify_plugin_handle_method_call self k ⟨"getPlatformVersion", a⟩ =
      [some (FlMethodResponse.success
        (FlValue.string ("Linux " ++ (unameData k).version)))] :=
  rfl

/-- Claim C2: every call whose name is not "getPlatformVersion" gets the
fixed not-implemented response, and that response never occurs for
"getPlatformVersion" itself — the unknown name is the only distinguished
condition. -/
theorem c2_unknown_method_not_implemented (self : StructifyPlugin)
    (k : Kernel) (c : FlMethodCall)
    (h : c.name ≠ "getPlatformVersion") :
    structify_plugin_handle_method_call self k c =
      [some FlMethodResponse.notImplemented] ∧
    ∀ a : FlValue,
      structify_plugin_handle_method_call self k ⟨"getPlatformVersion", a⟩ ≠
        [some FlMethodResponse.notImplemented] := by
  constructor
  · simp [structify_plugin_handle_method_call, h]
  · intro a
    simp [structify_plugin_handle_method_call, get_platform_version]

/-- Claim C2, witness: the call "foo" is rejected with the
not-implemented response. -/
theorem c2_witness :
    ("foo" : String) ≠ "getPlatformVersion" ∧
    structify_plugin_handle_method_call ⟨⟩ sampleKernel ⟨"foo", FlValue.null⟩ =
      [some FlMethodResponse.notImplemented] :=
  ⟨by decide,
   (c2_unknown_method_not_implemented ⟨⟩ sampleKernel ⟨"foo", FlValue.null⟩
      (by decide)).1⟩

/-- Claim C3: when the kernel query succeeds with a nonempty version
field, calling "getPlatformVersion" yields a success response whose
payload is a non-empty string consisting of the substring "Linux"
followed by the (nonempty) version token. -/
theorem c3_payload_linux_and_version (self : StructifyPlugin)
    (k : Kernel) (u : Utsname) (a : FlValue)
    (h1 : k.unameResult = some u) (h2 : u.version ≠ "") :
    ∃ s : String,
      structify_plugin_handle_method_call self k ⟨"getPlatformVersion", a⟩ =
        [some (FlMethodResponse.success (FlValue.string s))] ∧
      s ≠ "" ∧ s = "Linux " ++ u.version ∧ u.version ≠ "" := by
  refine ⟨"Linux " ++ u.version, ?_, ?_, rfl, h2⟩
  · simp [structify_plugin_handle_method_call, get_platform_version,
      g_strdup_printf_Linux, uname, h1]
  · intro hcontr
    have hlen := congrArg String.length hcontr
    simp [String.length_append] at hlen
    exact absurd hlen.1 (by decide)

/-- Claim C3, witness: at the sample kernel the payload is
"Linux #1 SMP PREEMPT_DYNAMIC Debian 6.1.76-1". -/
theorem c3_witness :
    sampleKernel.unameResult = some sampleUtsname ∧
    ∃ s : String,
      structify_plugin_handle_method_call ⟨⟩ sampleKernel
          ⟨"getPlatformVersion", FlValue.null⟩ =
        [some (FlMethodResponse.success (FlValue.string s))] ∧
      s ≠ "" ∧ s = "Linux " ++ sampleUtsname.version ∧
      sampleUtsname.version ≠ "" :=
  ⟨rfl,
   c3_payload_linux_and_version ⟨⟩ sampleKernel sampleUtsname FlValue.null
     rfl (by decide)⟩

/-- Claim C4: two consecutive "getPlatformVersion" dispatches against the
same host-kernel state produce identical responses, and the response does
not depend on the (field-less) plugin instance: the handler is
deterministic with no observable caching side effect. -/
theorem c4_double_call_deterministic (self : StructifyPlugin) (k : Kernel)
    (a : FlValue) :
    (callHandlerTwice self k ⟨"getPlatformVersion", a⟩).1 =
      (callHandlerTwice self k ⟨"getPlatformVersion", a⟩).2 ∧
    ∀ s1 s2 : StructifyPlugin,
      structify_plugin_handle_method_call s1 k ⟨"getPlatformVersion", a⟩ =
        structify_plugin_handle_method_call s2 k ⟨"getPlatformVersion", a⟩ :=
  ⟨rfl, fun _ _ => rfl⟩

/-- Claim C5: for every incoming call, whatever its name,
`fl_method_call_respond` is invoked exactly once, always with a non-null
response pointer. -/
theorem c5_exactly_one_response (self : StructifyPlugin) (k : Kernel)
    (c : FlMethodCall) :
    (structify_plugin_handle_method_call self k c).length = 1 ∧
    ∀ r ∈ structify_plugin_handle_method_call self k c, r.isSome := by
  constructor
  · simp [structify_plugin_handle_method_call]
  · intro r hr
    simp [structify_plugin_handle_method_call] at hr
    split at hr <;> simp [hr]

/-- Claim C6: the argument payload is never read, so for every method
name and every pair of payloads the dispatcher's response is the same
(noninterference of arguments). -/
theorem c6_args_noninterference (self : StructifyPlugin) (k : Kernel)
    (n : String) (a1 a2 : FlValue) :
    structify_plugin_handle_method_call self k ⟨n, a1⟩ =
      structify_plugin_handle_method_call self k ⟨n, a2⟩ :=
  rfl

/-- Claim C7: when the `uname` system call fails, no error branch is
taken: the handler still formats the struct's (default) contents into the
response, unvalidated, and returns a success envelope rather than any
distinguished error. -/
theorem c7_uname_failure_unchecked (k : Kernel)
    (h : k.unameResult = none) :
    get_platform_version k =
      FlMethodResponse.success
        (FlValue.string (g_strdup_printf_Linux Utsname.zeroInit.version)) ∧
    get_platform_version k ≠ FlMethodResponse.notImplemented := by
  constructor
  · simp [get_platform_version, uname, h]
  · simp [get_platform_version]

/-- Claim C7, witness: at the failing kernel the handler returns the
success envelope built from the zero-initialized struct. -/
theorem c7_witness :
    failingKernel.unameResult = none ∧
    get_platform_version failingKernel =
      FlMethodResponse.success
        (FlValue.string (g_strdup_printf_Linux Utsname.zeroInit.version)) :=
  ⟨rfl, (c7_uname_failure_unchecked failingKernel rfl).1⟩

/-- Claim C8: whenever the `uname` query succeeds, `get_platform_version`
builds a (non-null) string and wraps it in the success response. -/
theorem c8_success_string_nonnull (k : Kernel) (u : Utsname)
    (h : k.unameResult = some u) :
    ∃ s : String,
      get_platform_version k =
        FlMethodResponse.success (FlValue.string s) := by
  exact ⟨"Linux " ++ u.version, by
    simp [get_platform_version, uname, h, g_strdup_printf_Linux]⟩

/-- Claim C8, witness: at the sample kernel a string payload exists. -/
theorem c8_witness :
    sampleKernel.unameResult = some sampleUtsname ∧
    ∃ s : String,
      get_platform_version sampleKernel =
        FlMethodResponse.success (FlValue.string s) :=
  ⟨rfl, c8_success_string_nonnull sampleKernel sampleUtsname rfl⟩

/-- Claim C9: the success payload always begins with the hardcoded
literal "Linux " and its remainder is exactly the `version` field of the
utsname structure after the `uname` call; the kernel's reported
`sysname` field has no influence on the payload. -/
theorem c9_hardcoded_linux_plus_version (k : Kernel) :
    get_platform_version k =
      FlMethodResponse.success
        (FlValue.string ("Linux " ++ (unameData k).version)) ∧
    ∀ (u : Utsname) (s : String),
      get_platform_version ⟨some u⟩ =
        get_platform_version
          ⟨some ⟨s, u.nodename, u.release, u.version, u.machine⟩⟩ :=
  ⟨rfl, fun _ _ => rfl⟩

/-- Claim C10: the utsname struct is zero-initialized, so a failed
`uname` still yields a success envelope containing the well-defined
string "Linux " (hardcoded OS-name followed by the empty version field);
no error envelope results. -/
theorem c10_failed_uname_yields_linux_space (self : StructifyPlugin)
    (k : Kernel) (a : FlValue) (h : k.unameResult = none) :
    structify_plugin_handle_method_call self k ⟨"getPlatformVersion", a⟩ =
      [some (FlMethodResponse.success (FlValue.string "Linux "))] := by
  simp [structify_plugin_handle_method_call, get_platform_version, uname, h,
    g_strdup_printf_Linux, Utsname.zeroInit]

/-- Claim C10, witness: evaluated at the failing kernel. -/
theorem c10_witness :
    failingKernel.unameResult = none ∧
    structify_plugin_handle_method_call ⟨⟩ failingKernel
        ⟨"getPlatformVersion", FlValue.null⟩ =
      [some (FlMethodResponse.success (FlValue.string "Linux "))] :=
  ⟨rfl, c10_failed_uname_yields_linux_space ⟨⟩ failingKernel FlValue.null rfl⟩
